import Mathlib

/-!
Verification development for the aew-tracker repository.

The repository consists of two Python scripts:
  * `data_json.py`  - per-year GeoJSON export of AEW tracks (function
    `process_year` plus a main loop over `range(START_YEAR, END_YEAR+1)`);
  * `data_plt.py`   - static trajectory maps of a single year, one per
    month in June-October plus a full-season map.

Shallow embedding conventions:
  * a numpy float value that may be NaN is embedded as `Option ℚ`
    (`none` = NaN); float arithmetic on the non-NaN values is modelled
    exactly over `ℚ`;
  * a numpy `datetime64` timestamp is embedded as `Int`, the number of
    minutes since 1970-01-01 00:00 (the scripts only ever use minute
    resolution, via the format string `%Y-%m-%d %H:%M`); the calendar
    fields used by `pandas` (`.month`, `strftime`) are recovered with the
    standard civil-from-days algorithm;
  * a raw `TC_name` value is `Option String` (`none` = NaN) and a raw
    `TC_gen_time` is `Option Int` (`none` = NaT);
  * the filesystem seen by the main loop of `data_json.py` is a map
    `Int → Option Dataset` from a year to the content of
    `data/AEW_tracks_post_processed_year_{year}.nc`, `none` meaning that
    the file does not exist.
-/

/-! ## Calendar arithmetic (models `pandas.to_datetime(...).month` and
`strftime`): minutes since the Unix epoch to civil date fields. -/

/-- Civil date (year, month, day) of a day count relative to 1970-01-01,
via the standard Gregorian civil-from-days algorithm (floor division;
`Int.ediv` coincides with floor division for the positive divisors used
here). -/
def civilFromDays (z0 : Int) : Int × Int × Int :=
  let z := z0 + 719468
  let era := Int.ediv z 146097
  let doe := z - era * 146097
  let yoe := Int.ediv (doe - Int.ediv doe 1460 + Int.ediv doe 36524 - Int.ediv doe 146096) 365
  let y := yoe + era * 400
  let doy := doe - (365 * yoe + Int.ediv yoe 4 - Int.ediv yoe 100)
  let mp := Int.ediv (5 * doy + 2) 153
  let d := doy - Int.ediv (153 * mp + 2) 5 + 1
  let m := mp + (if mp < 10 then 3 else -9)
  (y + (if m ≤ 2 then 1 else 0), m, d)

/-- Calendar month (1..12) of a timestamp, as `pd.to_datetime(t).month`. -/
def monthOf (t : Int) : Nat :=
  ((civilFromDays (Int.ediv t 1440)).2.1).toNat

/-- Zero-pad a (nonnegative) field to two digits, as `strftime` does. -/
def pad2 (n : Int) : String :=
  if n < 10 then "0" ++ toString n else toString n

/-- Formatting `pd.to_datetime(t).strftime('%Y-%m-%d %H:%M')`. -/
def formatTime (t : Int) : String :=
  let days := Int.ediv t 1440
  let ymd := civilFromDays days
  let minuteOfDay := Int.emod t 1440
  toString ymd.1 ++ "-" ++ pad2 ymd.2.1 ++ "-" ++ pad2 ymd.2.2 ++ " " ++
    pad2 (Int.ediv minuteOfDay 60) ++ ":" ++ pad2 (Int.emod minuteOfDay 60)

/-- English month name, as `strftime('%B')` (used for figure file names in
`data_plt.py`). -/
def monthName : Nat → String
  | 1 => "January"
  | 2 => "February"
  | 3 => "March"
  | 4 => "April"
  | 5 => "May"
  | 6 => "June"
  | 7 => "July"
  | 8 => "August"
  | 9 => "September"
  | 10 => "October"
  | 11 => "November"
  | 12 => "December"
  | _ => ""

/-! ## Data model -/

/-- One tracked wave system of a yearly dataset: the per-system slices
`lon.sel(system=sys)`, `lat.sel(system=sys)`, `strength.sel(system=sys)`
of `ds.AEW_lon_smooth`, `ds.AEW_lat_smooth`, `ds.AEW_strength` (arrays
along the time axis, NaN = `none`), together with the raw scalars
`ds.TC_name.sel(system=sys)` and `ds.TC_gen_time.sel(system=sys)`. -/
structure RawSystem where
  sysId : Int
  lon : List (Option ℚ)
  lat : List (Option ℚ)
  strength : List (Option ℚ)
  tc_name_raw : Option String
  tc_gen_time_raw : Option Int
deriving DecidableEq, Repr

/-- A yearly dataset: the shared time coordinate and the systems it holds. -/
structure Dataset where
  time : List Int
  systems : List RawSystem
deriving DecidableEq, Repr

/-! ## Time cleaning (`data_json.py` lines 48-51 and `data_plt.py` lines
19-21): if the time index has duplicates, select the first-occurrence index
of each distinct time value via `np.unique(..., return_index=True)` and
sort by time. -/

/-- The check `ds.time.to_index().duplicated().any()`: some time value occurs twice. -/
def hasDup (l : List Int) : Bool :=
  decide (¬ l.Nodup)

/-- The distinct values of `l` in ascending order: the first component of
`np.unique(l, return_index=True)`. -/
def sortedUniqueVals (l : List Int) : List Int :=
  l.dedup.insertionSort (· ≤ ·)

/-- The second component of `np.unique(l, return_index=True)`: for each
distinct value in ascending order, the index of its first occurrence. -/
def npUniqueIdx (l : List Int) : List Nat :=
  (sortedUniqueVals l).map (fun v => l.indexOf v)

/-- Selection `isel(time=idx)`: the entries of `l` at the positions in `idx`. -/
def selectIdx (idx : List Nat) (l : List α) : List α :=
  idx.filterMap (fun i => l[i]?)

/-- The load-time cleaning step: when duplicates exist, keep the first
occurrence of each time value, sorted ascending, and subset every
per-system array at the same positions.  (`np.unique` already returns the
indices in ascending order of time value, so the subsequent
`sortby('time')` is the identity and is modelled as such.) -/
def cleanDataset (ds : Dataset) : Dataset :=
  if hasDup ds.time then
    let idx := npUniqueIdx ds.time
    { time := selectIdx idx ds.time
      systems := ds.systems.map (fun s =>
        { s with
          lon := selectIdx idx s.lon
          lat := selectIdx idx s.lat
          strength := selectIdx idx s.strength }) }
  else ds

/-! ## Per-system sample filtering (`data_json.py` lines 62-74): zip the
four arrays along time, build the mask `valid = ~(isnan x | isnan y |
isnan s)`, skip the system when nothing is valid, and keep `x[valid]`,
`y[valid]`, `s[valid]`, `t[valid]`. -/

/-- A row of the zipped arrays: (lon, lat, strength, time) at one time step. -/
abbrev SampleRow := Option ℚ × Option ℚ × Option ℚ × Int

/-- The zipped per-time-step rows of one system against the time axis. -/
def sampleRows (sys : RawSystem) (t : List Int) : List SampleRow :=
  sys.lon.zip (sys.lat.zip (sys.strength.zip t))

/-- The mask `~(np.isnan(x) | np.isnan(y) | np.isnan(s))` at one row. -/
def rowValid (r : SampleRow) : Bool :=
  !(r.1.isNone || r.2.1.isNone || r.2.2.1.isNone)

/-- Unwrap a retained row to floats, as `float(...)` does on the non-NaN
values selected by the mask (the default is never reached on a valid row). -/
def unwrapRow (r : SampleRow) : ℚ × ℚ × ℚ × Int :=
  (r.1.getD 0, r.2.1.getD 0, r.2.2.1.getD 0, r.2.2.2)

/-- The arrays `x[valid], y[valid], s[valid], t[valid]`: the retained samples of one
system, in time-axis order. -/
def validSamples (sys : RawSystem) (t : List Int) : List (ℚ × ℚ × ℚ × Int) :=
  ((sampleRows sys t).filter rowValid).map unwrapRow

/-! ## Feature construction (`data_json.py` lines 76-131). -/

/-- One entry of the `point_data` property. -/
structure PointDatum where
  strength : ℚ
  month : Nat
  time : String
deriving DecidableEq, Repr

/-- One GeoJSON Feature as built by `process_year`: LineString coordinates
plus the scalar properties. -/
structure Feature where
  coordinates : List (ℚ × ℚ)
  system_id : Int
  year : Int
  track_length_points : Nat
  months : List Nat
  strength_min : ℚ
  strength_max : ℚ
  strength_mean : ℚ
  point_data : List PointDatum
  developed_into_tc : Bool
  tc_name : Option String
  tc_genesis_time : Option String
deriving DecidableEq, Repr

/-- As `np.min` of a nonempty float array (0 is never used: callers pass
nonempty lists). -/
def listMin : List ℚ → ℚ
  | [] => 0
  | a :: l => l.foldl min a

/-- As `np.max` of a nonempty float array. -/
def listMax : List ℚ → ℚ
  | [] => 0
  | a :: l => l.foldl max a

/-- Lines 92-95: `tc_name = str(tc_name_raw).strip()`, set to `None` when
the raw value is missing (`pd.isna`), strips to the empty string, or
strips to the literal string `nan`. -/
def cleanTCName (raw : Option String) : Option String :=
  match raw with
  | none => none
  | some s =>
    let t := s.trim
    if t = "" ∨ t = "nan" then none else some t

/-- The Feature built for one system from its retained samples
(lines 76-130; only reached when at least one sample is valid).
`list(set(months))` is modelled as `dedup` (the distinct elements; Python
set iteration order is unspecified), `s.mean()` as exact rational
sum/length. -/
def mkFeature (year : Int) (t : List Int) (sys : RawSystem) : Feature :=
  let samples := validSamples sys t
  let xs := samples.map (fun r => r.1)
  let ys := samples.map (fun r => r.2.1)
  let ss := samples.map (fun r => r.2.2.1)
  let ts := samples.map (fun r => r.2.2.2)
  let coordinates := xs.zip ys
  let timesStr := ts.map formatTime
  let months := ts.map monthOf
  let pointData := (ss.zip (months.zip timesStr)).map
    (fun r => { strength := r.1, month := r.2.1, time := r.2.2 : PointDatum })
  { coordinates := coordinates
    system_id := sys.sysId
    year := year
    track_length_points := coordinates.length
    months := months.dedup
    strength_min := listMin ss
    strength_max := listMax ss
    strength_mean := ss.sum / (ss.length : ℚ)
    point_data := pointData
    developed_into_tc := sys.tc_gen_time_raw.isSome
    tc_name := cleanTCName sys.tc_name_raw
    tc_genesis_time := sys.tc_gen_time_raw.map formatTime }

/-- The per-system step of `process_year`: `continue` (no Feature) when no
sample is valid, otherwise one Feature. -/
def buildFeature (year : Int) (t : List Int) (sys : RawSystem) : Option Feature :=
  if (validSamples sys t).isEmpty then none else some (mkFeature year t sys)

/-- The `features` list produced by `process_year` from a (cleaned)
dataset: walk the systems in order, skipping those with no valid sample. -/
def extractFeatures (year : Int) (ds : Dataset) : List Feature :=
  ds.systems.filterMap (buildFeature year ds.time)

/-! ## Main loop of `data_json.py` (lines 140-189). -/

/-- Configuration `START_YEAR = 1979`. -/
def START_YEAR : Int := 1979

/-- Configuration `END_YEAR = 2023`. -/
def END_YEAR : Int := 2023

/-- Configuration `PER_YEAR_OUTPUT = True`. -/
def PER_YEAR_OUTPUT : Bool := true

/-- The year list `range(START_YEAR, END_YEAR + 1)`. -/
def yearRange : List Int :=
  (List.range (END_YEAR + 1 - START_YEAR).toNat).map
    (fun i : Nat => START_YEAR + (i : Int))

/-- The function `process_year(year)` (lines 39-134): `None` (after printing a warning)
when the input file is missing, otherwise the feature list extracted from
the cleaned dataset.  `fs` maps a year to the content of
`data/AEW_tracks_post_processed_year_{year}.nc`. -/
def process_year (fs : Int → Option Dataset) (year : Int) : Option (List Feature) :=
  match fs year with
  | none => none
  | some ds => some (extractFeatures year (cleanDataset ds))

/-- The observable state of the main loop: `all_features`, the per-year
files written so far (year paired with the feature list dumped into
`aew_tracks_{year}_interactive.json`), and the years for which the
missing-file warning was printed. -/
structure RunState where
  allFeatures : List Feature
  perYearFiles : List (Int × List Feature)
  warnings : List Int
deriving DecidableEq, Repr

/-- One iteration of the main loop (lines 142-158): on a missing file only
a warning is recorded; `if features:` is falsy both for `None` and for an
empty list, so only a nonempty feature list extends `all_features` and
(since `PER_YEAR_OUTPUT`) writes a per-year file. -/
def stepYear (fs : Int → Option Dataset) (st : RunState) (year : Int) : RunState :=
  match process_year fs year with
  | none => { st with warnings := st.warnings ++ [year] }
  | some feats =>
    if feats.isEmpty then st
    else
      { st with
        allFeatures := st.allFeatures ++ feats
        perYearFiles :=
          if PER_YEAR_OUTPUT then st.perYearFiles ++ [(year, feats)]
          else st.perYearFiles }

/-- The main loop over a list of years, from the empty initial state. -/
def runYears (fs : Int → Option Dataset) (years : List Int) : RunState :=
  years.foldl (stepYear fs) ⟨[], [], []⟩

/-- The feature list a single year contributes to `all_features`
(empty for a missing file and for a year with no valid system). -/
def yearFeatures (fs : Int → Option Dataset) (y : Int) : List Feature :=
  (process_year fs y).getD []

/-- Lines 163-172: the combined file is written only when `all_features`
is nonempty; its feature list is `all_features`. -/
def combinedFile (st : RunState) : Option (List Feature) :=
  if st.allFeatures.isEmpty then none else some st.allFeatures

/-- Line 189: the `No data processed` message is printed exactly when
`all_features` is empty. -/
def noDataMessage (st : RunState) : Bool :=
  st.allFeatures.isEmpty

/-! ## The plotting script `data_plt.py`. -/

/-- The month mask of `plot_with_proper_title` (lines 36-42): for a month
plot, `ds.month == month_num` along the time axis; for the full season,
everything is kept. -/
def monthMask (t : List Int) (m : Option Nat) : List Bool :=
  match m with
  | none => t.map (fun _ => true)
  | some mo => t.map (fun ti => monthOf ti == mo)

/-- Masking `.where(mask, drop=False)`: entries where the mask is false become NaN. -/
def whereMask (mask : List Bool) (vals : List (Option ℚ)) : List (Option ℚ) :=
  (vals.zip mask).map (fun r => if r.2 then r.1 else none)

/-- A zipped row (lon, lat, strength) of the masked plot arrays. -/
abbrev PlotRow := Option ℚ × Option ℚ × Option ℚ

/-- The zipped per-time-step rows of one system after month masking
(lines 57-59). -/
def plotRows (ds : Dataset) (m : Option Nat) (sys : RawSystem) : List PlotRow :=
  let mask := monthMask ds.time m
  (whereMask mask sys.lon).zip
    ((whereMask mask sys.lat).zip (whereMask mask sys.strength))

/-- The mask `~(np.isnan(x) | np.isnan(y) | np.isnan(s))` of the plot loop
(line 61). -/
def plotRowValid (r : PlotRow) : Bool :=
  !(r.1.isNone || r.2.1.isNone || r.2.2.isNone)

/-- The arrays `x[valid], y[valid], s[valid]` of the plot loop (line 65). -/
def plotRetained (ds : Dataset) (m : Option Nat) (sys : RawSystem) :
    List (ℚ × ℚ × ℚ) :=
  ((plotRows ds m sys).filter plotRowValid).map
    (fun r => (r.1.getD 0, r.2.1.getD 0, r.2.2.getD 0))

/-- The counter `n_tracks`: the number of systems that contribute a line collection
(at least one valid masked sample; lines 55-73). -/
def nTracks (ds : Dataset) (m : Option Nat) : Nat :=
  (ds.systems.filter
    (fun sys => !((plotRows ds m sys).filter plotRowValid).isEmpty)).length

/-- The month arguments of the six `plot_with_proper_title` calls
(lines 103-106): June to October, then the full season. -/
def plotSpecs : List (Option Nat) :=
  [some 6, some 7, some 8, some 9, some 10, none]

/-- The output file of one call (lines 91-95). -/
def figFile : Option Nat → String
  | some m => "figures/AEW_tracks_strength_" ++ monthName m ++ "_1995.png"
  | none => "figures/AEW_tracks_strength_FullSeason_1995.png"

/-- One `plot_with_proper_title` call: when no system contributes a line
collection the loop variable `lc` is never bound, so the later
`plt.colorbar(lc, ...)` (line 83) raises `NameError` before `savefig`
(line 97) and no file is written; otherwise the figure file is saved. -/
def plotMonth (ds : Dataset) (m : Option Nat) : Option String :=
  if nTracks ds m = 0 then none else some (figFile m)

/-- Run the plot calls in order: an unhandled `NameError` aborts the
script, keeping the files already saved; the flag records whether every
call completed. -/
def runPlots (ds : Dataset) : List (Option Nat) → List String × Bool
  | [] => ([], true)
  | m :: rest =>
    match plotMonth ds m with
    | none => ([], false)
    | some f =>
      let r := runPlots ds rest
      (f :: r.1, r.2)

/-- The whole plotting script on the content of the 1995 file: clean the
time axis, then run the six plot calls. -/
def plotScript (ds : Dataset) : List String × Bool :=
  runPlots (cleanDataset ds) plotSpecs

/-! ## Spec-side helper definitions and concrete instances used by
witnesses and counterexamples. -/

/-- The strength values of one system's retained samples. -/
def retainedStrengths (sys : RawSystem) (t : List Int) : List ℚ :=
  (validSamples sys t).map (fun r => r.2.2.1)

/-- The calendar months of one system's retained samples. -/
def retainedMonths (sys : RawSystem) (t : List Int) : List Nat :=
  (validSamples sys t).map (fun r => monthOf r.2.2.2)

/-- Concatenation of a list of feature lists, in order. -/
def concatAll : List (List Feature) → List Feature
  | [] => []
  | l :: ls => l ++ concatAll ls

/-- The per-year file one year writes, if any: only a year whose file
exists and whose feature list is nonempty writes one. -/
def writtenYearFile (fs : Int → Option Dataset) (y : Int) :
    Option (Int × List Feature) :=
  match process_year fs y with
  | none => none
  | some feats => if feats.isEmpty then none else some (y, feats)

/-- A two-step time axis: 1970-01-01 00:00 and 01:00. -/
def timeW : List Int := [0, 60]

/-- A system with one valid sample (the second is dropped: NaN longitude)
and full TC information. -/
def sysW : RawSystem :=
  { sysId := 1
    lon := [some 10, none]
    lat := [some 5, some 6]
    strength := [some 3, some 4]
    tc_name_raw := some " Alberto "
    tc_gen_time_raw := some 780000 }

/-- A system whose every sample has some NaN component. -/
def sysNaN : RawSystem :=
  { sysId := 7
    lon := [none]
    lat := [none]
    strength := [none]
    tc_name_raw := none
    tc_gen_time_raw := none }

/-- A dataset whose only system has no valid sample. -/
def dsNaN : Dataset := ⟨[0], [sysNaN]⟩

/-- A dataset whose time axis is duplicate-free but unsorted. -/
def dsUnsorted : Dataset := ⟨[2, 1], []⟩

/-- A dataset whose time axis has a duplicate (and is unsorted). -/
def dsDup : Dataset := ⟨[5, 3, 3, 1], []⟩

/-- A dataset with one system valid at one time step in each of the five
plotted months of 1995 (days 9296, 9326, 9358, 9389, 9419 since the epoch
are 1995-06-15, 07-15, 08-15, 09-15, 10-15). -/
def dsPlot : Dataset :=
  ⟨[9296 * 1440, 9326 * 1440, 9358 * 1440, 9389 * 1440, 9419 * 1440],
   [{ sysId := 1
      lon := [some 1, some 2, some 3, some 4, some 5]
      lat := [some 1, some 2, some 3, some 4, some 5]
      strength := [some 1, some 2, some 3, some 4, some 5]
      tc_name_raw := none
      tc_gen_time_raw := none }]⟩

/-- A dataset with no system at all. -/
def dsNoTracks : Dataset := ⟨[0], []⟩

/-! ## Helper lemmas -/

theorem rowValid_eq (r : SampleRow) :
    rowValid r = (r.1.isSome && r.2.1.isSome && r.2.2.1.isSome) := by
  obtain ⟨a, b, c, ti⟩ := r
  cases a <;> cases b <;> cases c <;> rfl

theorem plotRowValid_eq (r : PlotRow) :
    plotRowValid r = (r.1.isSome && r.2.1.isSome && r.2.2.isSome) := by
  obtain ⟨a, b, c⟩ := r
  cases a <;> cases b <;> cases c <;> rfl

theorem filterMap_if_eq_filter_map (p : α → Bool) (g : α → β) :
    ∀ l : List α,
      l.filterMap (fun a => if p a then none else some (g a))
        = (l.filter (fun a => !p a)).map g := by
  intro l
  induction l with
  | nil => rfl
  | cons a t ih =>
    by_cases h : p a = true <;>
      simp [List.filterMap_cons, List.filter_cons, h, ih]

theorem filterMap_eq_self_of (l : List α) (f : α → Option α)
    (h : ∀ x ∈ l, f x = some x) : l.filterMap f = l := by
  induction l with
  | nil => rfl
  | cons a t ih =>
    rw [List.filterMap_cons, h a (List.mem_cons_self a t),
      ih (fun x hx => h x (List.mem_cons_of_mem a hx))]

theorem foldl_min_mem_or (l : List ℚ) :
    ∀ a : ℚ, l.foldl min a = a ∨ l.foldl min a ∈ l := by
  induction l with
  | nil => intro a; left; rfl
  | cons b t ih =>
    intro a
    rcases ih (min a b) with h | h
    · rcases min_choice a b with hm | hm
      · left; rw [List.foldl_cons, h, hm]
      · right; rw [List.foldl_cons, h, hm]; exact List.mem_cons_self b t
    · right; exact List.mem_cons_of_mem b h

theorem foldl_min_le (l : List ℚ) :
    ∀ a : ℚ, l.foldl min a ≤ a ∧ ∀ v ∈ l, l.foldl min a ≤ v := by
  induction l with
  | nil => intro a; exact ⟨le_refl a, by simp⟩
  | cons b t ih =>
    intro a
    have h := ih (min a b)
    refine ⟨le_trans h.1 (min_le_left a b), ?_⟩
    intro v hv
    rcases List.mem_cons.mp hv with rfl | hv
    · exact le_trans h.1 (min_le_right a v)
    · exact h.2 v hv

theorem foldl_max_mem_or (l : List ℚ) :
    ∀ a : ℚ, l.foldl max a = a ∨ l.foldl max a ∈ l := by
  induction l with
  | nil => intro a; left; rfl
  | cons b t ih =>
    intro a
    rcases ih (max a b) with h | h
    · rcases max_choice a b with hm | hm
      · left; rw [List.foldl_cons, h, hm]
      · right; rw [List.foldl_cons, h, hm]; exact List.mem_cons_self b t
    · right; exact List.mem_cons_of_mem b h

theorem foldl_max_le (l : List ℚ) :
    ∀ a : ℚ, a ≤ l.foldl max a ∧ ∀ v ∈ l, v ≤ l.foldl max a := by
  induction l with
  | nil => intro a; exact ⟨le_refl a, by simp⟩
  | cons b t ih =>
    intro a
    have h := ih (max a b)
    refine ⟨le_trans (le_max_left a b) h.1, ?_⟩
    intro v hv
    rcases List.mem_cons.mp hv with rfl | hv
    · exact le_trans (le_max_right a v) h.1
    · exact h.2 v hv

theorem listMin_spec (l : List ℚ) (h : l ≠ []) :
    listMin l ∈ l ∧ ∀ v ∈ l, listMin l ≤ v := by
  match l with
  | [] => exact absurd rfl h
  | a :: t =>
    rw [listMin]
    constructor
    · rcases foldl_min_mem_or t a with h1 | h1
      · rw [h1]; exact List.mem_cons_self a t
      · exact List.mem_cons_of_mem a h1
    · intro v hv
      rcases List.mem_cons.mp hv with rfl | hv
      · exact (foldl_min_le t v).1
      · exact (foldl_min_le t a).2 v hv

theorem listMax_spec (l : List ℚ) (h : l ≠ []) :
    listMax l ∈ l ∧ ∀ v ∈ l, v ≤ listMax l := by
  match l with
  | [] => exact absurd rfl h
  | a :: t =>
    rw [listMax]
    constructor
    · rcases foldl_max_mem_or t a with h1 | h1
      · rw [h1]; exact List.mem_cons_self a t
      · exact List.mem_cons_of_mem a h1
    · intro v hv
      rcases List.mem_cons.mp hv with rfl | hv
      · exact (foldl_max_le t v).1
      · exact (foldl_max_le t a).2 v hv

theorem selectIdx_npUniqueIdx (l : List Int) :
    selectIdx (npUniqueIdx l) l = sortedUniqueVals l := by
  rw [selectIdx, npUniqueIdx, List.filterMap_map]
  apply filterMap_eq_self_of
  intro v hv
  have hvl : v ∈ l :=
    List.mem_dedup.mp ((List.perm_insertionSort (· ≤ ·) l.dedup).mem_iff.mp hv)
  simpa using List.getElem?_indexOf hvl

theorem sortedUniqueVals_nodup (l : List Int) : (sortedUniqueVals l).Nodup :=
  ((List.perm_insertionSort (· ≤ ·) l.dedup).nodup_iff).mpr l.nodup_dedup

theorem sortedUniqueVals_sorted (l : List Int) :
    List.Sorted (· < ·) (sortedUniqueVals l) :=
  (List.sorted_insertionSort (· ≤ ·) l.dedup).lt_of_le (sortedUniqueVals_nodup l)

theorem cleanDataset_time_of_dup (ds : Dataset) (h : ¬ ds.time.Nodup) :
    (cleanDataset ds).time = sortedUniqueVals ds.time := by
  rw [cleanDataset, if_pos (by simpa [hasDup] using h)]
  exact selectIdx_npUniqueIdx ds.time

theorem cleanDataset_of_nodup (ds : Dataset) (h : ds.time.Nodup) :
    cleanDataset ds = ds := by
  rw [cleanDataset, if_neg (by simpa [hasDup] using h)]

theorem foldl_allFeatures (fs : Int → Option Dataset) :
    ∀ (years : List Int) (st : RunState),
      (years.foldl (stepYear fs) st).allFeatures
        = st.allFeatures ++ concatAll (years.map (yearFeatures fs)) := by
  intro years
  induction years with
  | nil => intro st; simp [concatAll]
  | cons y ys ih =>
    intro st
    rw [List.foldl_cons, List.map_cons, ih]
    rcases hy : process_year fs y with _ | feats
    · simp [stepYear, hy, yearFeatures, concatAll]
    · by_cases hfe : feats.isEmpty = true
      · have : feats = [] := List.isEmpty_iff.mp hfe
        simp [stepYear, hy, hfe, yearFeatures, concatAll, this]
      · simp [stepYear, hy, hfe, yearFeatures, concatAll]

theorem foldl_warnings (fs : Int → Option Dataset) :
    ∀ (years : List Int) (st : RunState),
      (years.foldl (stepYear fs) st).warnings
        = st.warnings ++ years.filter (fun y => (fs y).isNone) := by
  intro years
  induction years with
  | nil => intro st; simp
  | cons y ys ih =>
    intro st
    rw [List.foldl_cons, ih]
    rcases hy : fs y with _ | ds
    · simp [stepYear, process_year, hy, List.filter_cons]
    · by_cases hfe : (extractFeatures y (cleanDataset ds)).isEmpty = true <;>
        simp [stepYear, process_year, hy, hfe, List.filter_cons]

theorem foldl_perYearFiles (fs : Int → Option Dataset) :
    ∀ (years : List Int) (st : RunState),
      (years.foldl (stepYear fs) st).perYearFiles
        = st.perYearFiles ++ years.filterMap (writtenYearFile fs) := by
  intro years
  induction years with
  | nil => intro st; simp
  | cons y ys ih =>
    intro st
    rw [List.foldl_cons, ih]
    rcases hy : process_year fs y with _ | feats
    · simp [stepYear, writtenYearFile, hy, List.filterMap_cons]
    · by_cases hfe : feats.isEmpty = true <;>
        simp [stepYear, writtenYearFile, hy, hfe, PER_YEAR_OUTPUT,
          List.filterMap_cons]

theorem yearRange_mem_iff :
    ∀ y : Int, y ∈ yearRange ↔ START_YEAR ≤ y ∧ y ≤ END_YEAR := by
  intro y
  rw [yearRange]
  simp only [List.mem_map, List.mem_range, START_YEAR, END_YEAR]
  constructor
  · rintro ⟨i, hi, rfl⟩
    constructor <;> omega
  · intro h
    exact ⟨(y - 1979).toNat, by omega, by omega⟩

theorem mkFeature_coordinates (year : Int) (t : List Int) (sys : RawSystem) :
    (mkFeature year t sys).coordinates
      = ((validSamples sys t).map (fun r => r.1)).zip
          ((validSamples sys t).map (fun r => r.2.1)) := rfl

theorem mkFeature_track_length (year : Int) (t : List Int) (sys : RawSystem) :
    (mkFeature year t sys).track_length_points
      = (mkFeature year t sys).coordinates.length := rfl

theorem mkFeature_months (year : Int) (t : List Int) (sys : RawSystem) :
    (mkFeature year t sys).months
      = (((validSamples sys t).map (fun r => r.2.2.2)).map monthOf).dedup := rfl

theorem mkFeature_strength_min (year : Int) (t : List Int) (sys : RawSystem) :
    (mkFeature year t sys).strength_min = listMin (retainedStrengths sys t) := rfl

theorem mkFeature_strength_max (year : Int) (t : List Int) (sys : RawSystem) :
    (mkFeature year t sys).strength_max = listMax (retainedStrengths sys t) := rfl

theorem mkFeature_strength_mean (year : Int) (t : List Int) (sys : RawSystem) :
    (mkFeature year t sys).strength_mean
      = (retainedStrengths sys t).sum / ((retainedStrengths sys t).length : ℚ) := rfl

theorem mkFeature_point_data (year : Int) (t : List Int) (sys : RawSystem) :
    (mkFeature year t sys).point_data
      = (((validSamples sys t).map (fun r => r.2.2.1)).zip
          ((((validSamples sys t).map (fun r => r.2.2.2)).map monthOf).zip
            (((validSamples sys t).map (fun r => r.2.2.2)).map formatTime))).map
          (fun r => { strength := r.1, month := r.2.1, time := r.2.2 : PointDatum }) := rfl

theorem mkFeature_tc (year : Int) (t : List Int) (sys : RawSystem) :
    (mkFeature year t sys).developed_into_tc = sys.tc_gen_time_raw.isSome
    ∧ (mkFeature year t sys).tc_name = cleanTCName sys.tc_name_raw
    ∧ (mkFeature year t sys).tc_genesis_time
        = sys.tc_gen_time_raw.map formatTime :=
  ⟨rfl, rfl, rfl⟩

theorem coordinates_eq_pairs (year : Int) (t : List Int) (sys : RawSystem) :
    (mkFeature year t sys).coordinates
      = (validSamples sys t).map (fun r => (r.1, r.2.1)) := by
  rw [mkFeature_coordinates, List.zip_map']

theorem buildFeature_some (year : Int) (t : List Int) (sys : RawSystem)
    (h : validSamples sys t ≠ []) :
    buildFeature year t sys = some (mkFeature year t sys) := by
  rw [buildFeature, if_neg]
  simpa [List.isEmpty_iff] using h

/-! ## Claim theorems -/

/-- C1: a time step of a system is retained - both by the GeoJSON export
(`process_year`) and by the plot rendering (`plot_with_proper_title`) -
exactly when all three of its longitude, latitude and strength values are
defined (non-NaN); a sample with any undefined component is dropped. -/
theorem retained_iff_all_defined :
    ∀ (sys : RawSystem) (t : List Int) (ds : Dataset) (m : Option Nat),
      ((sampleRows sys t).filter rowValid
        = (sampleRows sys t).filter
            (fun r => r.1.isSome && r.2.1.isSome && r.2.2.1.isSome))
      ∧ (validSamples sys t
          = ((sampleRows sys t).filter
              (fun r => r.1.isSome && r.2.1.isSome && r.2.2.1.isSome)).map unwrapRow)
      ∧ ((plotRows ds m sys).filter plotRowValid
          = (plotRows ds m sys).filter
              (fun r => r.1.isSome && r.2.1.isSome && r.2.2.isSome))
      ∧ (plotRetained ds m sys
          = ((plotRows ds m sys).filter
              (fun r => r.1.isSome && r.2.1.isSome && r.2.2.isSome)).map
              (fun r => (r.1.getD 0, r.2.1.getD 0, r.2.2.getD 0))) := by
  intro sys t ds m
  have h1 : (sampleRows sys t).filter rowValid
      = (sampleRows sys t).filter
          (fun r => r.1.isSome && r.2.1.isSome && r.2.2.1.isSome) :=
    List.filter_congr (fun r _ => rowValid_eq r)
  have h2 : (plotRows ds m sys).filter plotRowValid
      = (plotRows ds m sys).filter
          (fun r => r.1.isSome && r.2.1.isSome && r.2.2.isSome) :=
    List.filter_congr (fun r _ => plotRowValid_eq r)
  exact ⟨h1, by rw [validSamples, h1], h2, by rw [plotRetained, h2]⟩

/-- C7 (amended): every system with at least one retained sample is
serialized into exactly one geometry record, whose LineString coordinates
are the [longitude, latitude] pairs of its retained samples in time-axis
order; a system with no retained sample is skipped and produces no
record. -/
theorem one_feature_per_valid_system :
    ∀ (year : Int) (ds : Dataset),
      (extractFeatures year ds
        = (ds.systems.filter
            (fun sys => !(validSamples sys ds.time).isEmpty)).map
            (mkFeature year ds.time))
      ∧ ∀ sys : RawSystem,
          (mkFeature year ds.time sys).coordinates
            = (validSamples sys ds.time).map (fun r => (r.1, r.2.1)) := by
  intro year ds
  constructor
  · show ds.systems.filterMap
        (fun sys => if (validSamples sys ds.time).isEmpty then none
          else some (mkFeature year ds.time sys)) = _
    exact filterMap_if_eq_filter_map _ _ ds.systems
  · intro sys
    exact coordinates_eq_pairs year ds.time sys

/-- C7 counterexample: a dataset containing one system (every sample of
which has an undefined component) produces no geometry record at all, so
it is not the case that every system is serialized into one record. -/
theorem one_feature_per_valid_system_cex :
    dsNaN.systems.length = 1 ∧ extractFeatures 1995 dsNaN = [] := by
  constructor
  · rfl
  · rfl

/-- C9: every Feature emitted by the export has at least one coordinate
pair, and its `track_length_points` equals both the number of coordinate
pairs and the number of `point_data` entries; a system with no valid
sample produces no Feature. -/
theorem emitted_feature_invariants :
    ∀ (year : Int) (t : List Int) (sys : RawSystem),
      (∀ f : Feature, buildFeature year t sys = some f →
        f.coordinates ≠ []
        ∧ f.track_length_points = f.coordinates.length
        ∧ f.track_length_points = f.point_data.length)
      ∧ (validSamples sys t = [] → buildFeature year t sys = none) := by
  intro year t sys
  constructor
  · intro f hf
    rw [buildFeature] at hf
    by_cases he : (validSamples sys t).isEmpty = true
    · rw [if_pos he] at hf
      exact absurd hf (by simp)
    · rw [if_neg he] at hf
      have hne : validSamples sys t ≠ [] := by
        simpa [List.isEmpty_iff] using he
      have hpos : 0 < (validSamples sys t).length := List.length_pos.mpr hne
      obtain rfl : mkFeature year t sys = f := Option.some.inj hf
      have hclen : (mkFeature year t sys).coordinates.length
          = (validSamples sys t).length := by
        rw [mkFeature_coordinates]
        simp
      have hplen : (mkFeature year t sys).point_data.length
          = (validSamples sys t).length := by
        rw [mkFeature_point_data]
        simp
      refine ⟨?_, mkFeature_track_length year t sys, ?_⟩
      · exact List.length_pos.mp (by rw [hclen]; exact hpos)
      · rw [mkFeature_track_length, hclen, hplen]
  · intro h
    rw [buildFeature, if_pos]
    rw [h]
    rfl

/-- C3: for every emitted feature, `strength_min`, `strength_max` and
`strength_mean` are the minimum, maximum and arithmetic mean of the
strengths over the system's retained samples (the mean stated as
mean times count equals sum), and `months` is the set of distinct calendar
months of the retained samples' times (no duplicates, same members). -/
theorem summary_stats_correct :
    ∀ (year : Int) (t : List Int) (sys : RawSystem),
      validSamples sys t ≠ [] →
      ((mkFeature year t sys).strength_min ∈ retainedStrengths sys t
        ∧ ∀ v ∈ retainedStrengths sys t, (mkFeature year t sys).strength_min ≤ v)
      ∧ ((mkFeature year t sys).strength_max ∈ retainedStrengths sys t
        ∧ ∀ v ∈ retainedStrengths sys t, v ≤ (mkFeature year t sys).strength_max)
      ∧ (mkFeature year t sys).strength_mean * ((retainedStrengths sys t).length : ℚ)
          = (retainedStrengths sys t).sum
      ∧ (mkFeature year t sys).months.Nodup
      ∧ (∀ mo : Nat, mo ∈ (mkFeature year t sys).months ↔ mo ∈ retainedMonths sys t) := by
  intro year t sys h
  have hsne : retainedStrengths sys t ≠ [] := fun hc => h (List.map_eq_nil_iff.mp hc)
  refine ⟨?_, ?_, ?_, ?_, ?_⟩
  · rw [mkFeature_strength_min]
    exact listMin_spec _ hsne
  · rw [mkFeature_strength_max]
    exact listMax_spec _ hsne
  · rw [mkFeature_strength_mean]
    have hlen : ((retainedStrengths sys t).length : ℚ) ≠ 0 :=
      Nat.cast_ne_zero.mpr (by simpa [List.length_eq_zero] using hsne)
    exact div_mul_cancel₀ _ hlen
  · rw [mkFeature_months]
    exact List.nodup_dedup _
  · intro mo
    rw [mkFeature_months]
    simp [List.mem_dedup, List.map_map, retainedMonths, Function.comp]

/-- C3 witness: on a concrete system with one retained sample, the
`strength_min` property is among the retained strengths. -/
theorem summary_stats_correct_witness :
    (mkFeature 1995 timeW sysW).strength_min ∈ retainedStrengths sysW timeW :=
  ((summary_stats_correct 1995 timeW sysW (by decide)).1).1

/-- C4: `developed_into_tc` is true exactly when the raw genesis time is
non-null; `tc_genesis_time` is null exactly when `developed_into_tc` is
false and otherwise the formatted genesis time; `tc_name` is null when
the raw name is null, empty after stripping, or the literal string `nan`,
and otherwise the stripped raw name. -/
theorem tc_fields_correct :
    ∀ (year : Int) (t : List Int) (sys : RawSystem),
      validSamples sys t ≠ [] →
      buildFeature year t sys = some (mkFeature year t sys)
      ∧ ((mkFeature year t sys).developed_into_tc = true ↔ sys.tc_gen_time_raw ≠ none)
      ∧ ((mkFeature year t sys).tc_genesis_time = none
          ↔ (mkFeature year t sys).developed_into_tc = false)
      ∧ (∀ g : Int, sys.tc_gen_time_raw = some g →
          (mkFeature year t sys).tc_genesis_time = some (formatTime g))
      ∧ (sys.tc_name_raw = none → (mkFeature year t sys).tc_name = none)
      ∧ (∀ s : String, sys.tc_name_raw = some s →
          ((s.trim = "" ∨ s.trim = "nan") → (mkFeature year t sys).tc_name = none)
          ∧ (s.trim ≠ "" → s.trim ≠ "nan" →
              (mkFeature year t sys).tc_name = some s.trim)) := by
  intro year t sys h
  obtain ⟨hdev, hname, hgen⟩ := mkFeature_tc year t sys
  refine ⟨buildFeature_some year t sys h, ?_, ?_, ?_, ?_, ?_⟩
  · rw [hdev]
    cases sys.tc_gen_time_raw <;> simp
  · rw [hgen, hdev]
    cases sys.tc_gen_time_raw <;> simp
  · intro g hg
    rw [hgen, hg]
    rfl
  · intro hn
    rw [hname, hn]
    rfl
  · intro s hs
    rw [hname, hs]
    constructor
    · intro hcond
      show (if s.trim = "" ∨ s.trim = "nan" then none else some s.trim) = none
      rw [if_pos hcond]
    · intro h1 h2
      show (if s.trim = "" ∨ s.trim = "nan" then none else some s.trim)
          = some s.trim
      rw [if_neg (fun hc => hc.elim h1 h2)]

/-- C4 witness: the concrete system `sysW` has a raw genesis time, and the
theorem yields `developed_into_tc = true` for its feature. -/
theorem tc_fields_correct_witness :
    (mkFeature 1995 timeW sysW).developed_into_tc = true :=
  (tc_fields_correct 1995 timeW sysW (by decide)).2.1.mpr (by decide)

/-- C2 (amended): after the load-time cleaning the time coordinate has no
duplicate values; and whenever the original time coordinate did contain
duplicates (so the cleaning branch actually runs), the cleaned time
coordinate is moreover sorted in strictly ascending order. -/
theorem time_clean_nodup_sorted :
    ∀ ds : Dataset,
      (cleanDataset ds).time.Nodup
      ∧ (¬ ds.time.Nodup → List.Sorted (· < ·) (cleanDataset ds).time) := by
  intro ds
  by_cases hd : ds.time.Nodup
  · rw [cleanDataset_of_nodup ds hd]
    exact ⟨hd, fun hneg => absurd hd hneg⟩
  · rw [cleanDataset_time_of_dup ds hd]
    exact ⟨sortedUniqueVals_nodup _, fun _ => sortedUniqueVals_sorted _⟩

/-- C2 witness: on a time axis with a duplicate, the cleaned axis is
duplicate-free and strictly ascending. -/
theorem time_clean_nodup_sorted_witness :
    (cleanDataset dsDup).time.Nodup
    ∧ List.Sorted (· < ·) (cleanDataset dsDup).time :=
  ⟨(time_clean_nodup_sorted dsDup).1,
   (time_clean_nodup_sorted dsDup).2 (by decide)⟩

/-- C2 counterexample: a duplicate-free but unsorted time coordinate is
left untouched by the cleaning step, so after the time-cleaning step the
time coordinate is not sorted in ascending order. -/
theorem time_clean_cex :
    (cleanDataset dsUnsorted).time = [2, 1]
    ∧ ¬ List.Sorted (· < ·) (cleanDataset dsUnsorted).time := by
  have h : cleanDataset dsUnsorted = dsUnsorted :=
    cleanDataset_of_nodup dsUnsorted (by decide)
  rw [h]
  refine ⟨rfl, ?_⟩
  intro hs
  have := List.rel_of_sorted_cons hs 1 (List.mem_singleton.mpr rfl)
  omega

/-- C6: the combined collection's feature list is the concatenation of the
per-year feature lists over the year range in order; the year range is
strictly ascending and contains each year from `START_YEAR` to `END_YEAR`
inclusive exactly once. -/
theorem combined_is_ordered_concat :
    ∀ fs : Int → Option Dataset,
      (runYears fs yearRange).allFeatures
          = concatAll (yearRange.map (yearFeatures fs))
      ∧ List.Sorted (· < ·) yearRange
      ∧ (∀ y : Int, y ∈ yearRange ↔ START_YEAR ≤ y ∧ y ≤ END_YEAR)
      ∧ (∀ y : Int, y ∈ yearRange → yearRange.count y = 1) := by
  intro fs
  have hsorted : List.Sorted (· < ·) yearRange := by decide
  refine ⟨?_, hsorted, yearRange_mem_iff, ?_⟩
  · rw [runYears, foldl_allFeatures fs yearRange ⟨[], [], []⟩]
    rfl
  · intro y hy
    exact List.count_eq_one_of_mem (List.Pairwise.nodup hsorted) hy

/-- C6 witness: instantiated on the everywhere-missing filesystem and the
year 1980. -/
theorem combined_is_ordered_concat_witness :
    (runYears (fun _ => none) yearRange).allFeatures
        = concatAll (yearRange.map (yearFeatures (fun _ => none)))
    ∧ ((1980 : Int) ∈ yearRange ↔ START_YEAR ≤ (1980 : Int) ∧ (1980 : Int) ≤ END_YEAR)
    ∧ yearRange.count 1980 = 1 :=
  ⟨(combined_is_ordered_concat (fun _ => none)).1,
   (combined_is_ordered_concat (fun _ => none)).2.2.1 1980,
   (combined_is_ordered_concat (fun _ => none)).2.2.2 1980 (by decide)⟩

/-- C5: a year in the processed range whose input file is missing gets the
warning, contributes no features, gets no per-year output file, and the
run still processes every other year (the combined list is still the
concatenation of all years' contributions); the run never aborts. -/
theorem missing_year_skipped :
    ∀ (fs : Int → Option Dataset) (y : Int),
      y ∈ yearRange → fs y = none →
      y ∈ (runYears fs yearRange).warnings
      ∧ yearFeatures fs y = []
      ∧ (∀ feats : List Feature, (y, feats) ∉ (runYears fs yearRange).perYearFiles)
      ∧ (runYears fs yearRange).allFeatures
          = concatAll (yearRange.map (yearFeatures fs)) := by
  intro fs y hy hfs
  refine ⟨?_, ?_, ?_, ?_⟩
  · rw [runYears, foldl_warnings fs yearRange ⟨[], [], []⟩]
    simp only [List.nil_append]
    exact List.mem_filter.mpr ⟨hy, by simp [hfs]⟩
  · simp [yearFeatures, process_year, hfs]
  · intro feats hmem
    rw [runYears, foldl_perYearFiles fs yearRange ⟨[], [], []⟩] at hmem
    simp only [List.nil_append] at hmem
    obtain ⟨a, _, ha⟩ := List.mem_filterMap.mp hmem
    rcases hpa : process_year fs a with _ | fa
    · rw [writtenYearFile, hpa] at ha
      exact absurd ha (by simp)
    · rw [writtenYearFile, hpa] at ha
      dsimp only at ha
      by_cases hfe : fa.isEmpty = true
      · rw [if_pos hfe] at ha
        exact absurd ha (by simp)
      · rw [if_neg hfe] at ha
        obtain ⟨rfl, rfl⟩ : a = y ∧ fa = feats := by
          have h1 := Option.some.inj ha
          exact ⟨congrArg Prod.fst h1, congrArg Prod.snd h1⟩
        rw [process_year, hfs] at hpa
        exact absurd hpa (by simp)
  · rw [runYears, foldl_allFeatures fs yearRange ⟨[], [], []⟩]
    rfl

/-- C5 witness: with every input file missing, 1979 is warned about. -/
theorem missing_year_skipped_witness :
    (1979 : Int) ∈ (runYears (fun _ => none) yearRange).warnings :=
  (missing_year_skipped (fun _ => none) 1979 (by decide) rfl).1

/-- C10: a per-year file is written only for a year with at least one
feature; the combined file is withheld exactly when no feature exists at
all, in which case the no-data message is reported. -/
theorem output_files_condition :
    ∀ fs : Int → Option Dataset,
      (∀ (y : Int) (feats : List Feature),
        (y, feats) ∈ (runYears fs yearRange).perYearFiles → feats ≠ [])
      ∧ (combinedFile (runYears fs yearRange) = none
          ↔ (runYears fs yearRange).allFeatures = [])
      ∧ ((runYears fs yearRange).allFeatures = []
          → noDataMessage (runYears fs yearRange) = true) := by
  intro fs
  refine ⟨?_, ?_, ?_⟩
  · intro y feats hmem
    rw [runYears, foldl_perYearFiles fs yearRange ⟨[], [], []⟩] at hmem
    simp only [List.nil_append] at hmem
    obtain ⟨a, _, ha⟩ := List.mem_filterMap.mp hmem
    rcases hpa : process_year fs a with _ | fa
    · rw [writtenYearFile, hpa] at ha
      exact absurd ha (by simp)
    · rw [writtenYearFile, hpa] at ha
      dsimp only at ha
      by_cases hfe : fa.isEmpty = true
      · rw [if_pos hfe] at ha
        exact absurd ha (by simp)
      · rw [if_neg hfe] at ha
        have h1 := Option.some.inj ha
        have hfa : fa = feats := congrArg Prod.snd h1
        rw [← hfa]
        simpa [List.isEmpty_iff] using hfe
  · rw [combinedFile]
    by_cases he : (runYears fs yearRange).allFeatures.isEmpty = true
    · rw [if_pos he]
      simp [List.isEmpty_iff.mp he]
    · rw [if_neg he]
      constructor
      · intro hc
        exact absurd hc (by simp)
      · intro hc
        exact absurd (List.isEmpty_iff.mpr hc) he
  · intro h
    rw [noDataMessage]
    exact List.isEmpty_iff.mpr h

/-- C10 witness: with every input file missing there is no feature, the
combined file is withheld and the no-data message is reported. -/
theorem output_files_condition_witness :
    combinedFile (runYears (fun _ => none) yearRange) = none
    ∧ noDataMessage (runYears (fun _ => none) yearRange) = true :=
  ⟨(output_files_condition (fun _ => none)).2.1.mpr (by decide),
   (output_files_condition (fun _ => none)).2.2 (by decide)⟩

/-- C9 witness: a feature emitted for the concrete system `sysW` has a
nonempty coordinate list, and the all-NaN system `sysNaN` emits none. -/
theorem emitted_feature_invariants_witness :
    (mkFeature 1995 timeW sysW).coordinates ≠ []
    ∧ buildFeature 1995 [0] sysNaN = none :=
  ⟨((emitted_feature_invariants 1995 timeW sysW).1 (mkFeature 1995 timeW sysW)
      (buildFeature_some 1995 timeW sysW (by decide))).1,
   (emitted_feature_invariants 1995 [0] sysNaN).2 (by decide)⟩

/-- C8 (amended): provided each plotted month (June to October) and the
full season have at least one system with a retained sample under that
plot's mask, the plotting script saves exactly one figure per month plus
one full-season figure, six pairwise distinct files; when some plot has no
track, the unbound `lc` makes the colorbar call raise `NameError` and the
script aborts with only the earlier figures saved. -/
theorem plots_saved_when_tracks_exist :
    ∀ ds : Dataset,
      (∀ m ∈ plotSpecs, nTracks (cleanDataset ds) m ≠ 0) →
      plotScript ds = (plotSpecs.map figFile, true)
      ∧ (plotSpecs.map figFile).length = plotSpecs.length
      ∧ (plotSpecs.map figFile).Nodup := by
  intro ds h
  refine ⟨?_, List.length_map _ _, by decide⟩
  have h6 := h (some 6) (by decide)
  have h7 := h (some 7) (by decide)
  have h8 := h (some 8) (by decide)
  have h9 := h (some 9) (by decide)
  have h10 := h (some 10) (by decide)
  have hn := h none (by decide)
  simp [plotScript, plotSpecs, runPlots, plotMonth, h6, h7, h8, h9, h10, hn]

/-- C8 witness: a concrete dataset with a track in each plotted month
yields all six figures. -/
theorem plots_saved_when_tracks_exist_witness :
    plotScript dsPlot = (plotSpecs.map figFile, true) :=
  (plots_saved_when_tracks_exist dsPlot (by decide)).1

/-- C8 counterexample: on a dataset with no system the very first monthly
plot has no line collection, the script aborts at the colorbar call, and
no figure at all is saved - not one map per month plus a season map. -/
theorem plots_cex : plotScript dsNoTracks = ([], false) := by decide
